import Mathlib

/-!
Verification of the schema-generation engine of `py_avro_schema`
(`src/py_avro_schema/_schemas.py`), via a shallow embedding in Lean.

Python types/classes handled by the generator are modelled by the inductive
`PyType`; runtime Python values that occur as record-field defaults are
modelled by `PyVal`; the JSON-shaped schema documents by `JSONType`.

Python machine integers are arbitrary precision, so `Nat`/`Int` model them
exactly.  Fallible code (Python `raise`) is modelled with `Except PyErr`.
The construction and rendering recursions carry an explicit fuel parameter
in place of Python's interpreter recursion limit; every claim below either
quantifies over the fuel or supplies a concrete sufficient amount.
-/

namespace PyAvroSchema

/-- The option flags of `class Option(enum.Flag)` (schema-construction flags
only; the JSON-rendering flags are consumed outside the engine).  Named
`Options` to avoid clashing with Lean's `Option`. -/
structure Options where
  int_32 : Bool
  float_32 : Bool
  milliseconds : Bool
  defaults_mandatory : Bool
  logical_json_string : Bool
  no_auto_namespace : Bool
  auto_namespace_module : Bool
  no_doc : Bool
  use_field_alias : Bool
deriving DecidableEq, Repr

/-- `Option(0)`: no flags set. -/
def defaultOptions : Options :=
  ⟨false, false, false, false, false, false, false, false, false⟩

/-- Runtime Python values that can appear as record-field defaults.

Host-library arithmetic is abstracted at the value level: a `datetime.date`
is represented by its signed day count from 1970-01-01 (the result of the
code's `(d - datetime.date(1970, 1, 1)).days`), a `datetime.time` by its
clock components, a timezone-aware `datetime.datetime` by its signed
microsecond offset from the epoch, and a `decimal.Decimal` by the
`(sign, digits, exponent)` triple returned by `Decimal.as_tuple()`. -/
inductive PyVal where
  | vNone
  | vBool (b : Bool)
  | vInt (n : Int)
  | vStr (s : String)
  | vDate (daysSinceEpoch : Int)
  | vTime (hour minute second microsecond : Nat)
  | vDateTime (aware : Bool) (microsSinceEpoch : Int)
  | vDecimal (sign : Bool) (digits : List Nat) (exp : Int)
  | vTimeDelta
  | vUUID
deriving DecidableEq, Repr

/-- `type(value).__name__`, as used by `EnumSchema.__init__` to validate
member values.  The check there is on the exact type, not `isinstance`. -/
def PyVal.typeName : PyVal → String
  | .vNone => "NoneType"
  | .vBool _ => "bool"
  | .vInt _ => "int"
  | .vStr _ => "str"
  | .vDate _ => "date"
  | .vTime _ _ _ _ => "time"
  | .vDateTime _ _ => "datetime"
  | .vDecimal _ _ _ => "Decimal"
  | .vTimeDelta => "timedelta"
  | .vUUID => "UUID"

/-- The underlying string of a string value, if it is one. -/
def PyVal.asString : PyVal → Option String
  | .vStr s => some s
  | _ => none

def PyVal.isVStr : PyVal → Bool
  | .vStr _ => true
  | _ => false

/-- `NamesType`: the list of already-rendered full names threaded through
one top-level generation call. -/
abbrev NamesType := List String

/-- JSON-shaped schema data (the `JSONType` union of the source).  Objects
are ordered key/value lists, matching Python dict insertion order. -/
inductive JSONType where
  | jNull
  | jBool (b : Bool)
  | jNum (n : Int)
  | jStr (s : String)
  | jArr (items : List JSONType)
  | jObj (fields : List (String × JSONType))

/-- Python type descriptions, the input universe of the generator.  Each
constructor models one kind of annotation the dispatcher distinguishes:

* the six builtin primitive classes;
* `typing.Any`;
* a subclass of `str` that is not an enum (`strSub`), carrying its
  `__name__` and the name of its declaring module;
* the stdlib classes `uuid.UUID`, `datetime.date`, `datetime.datetime`,
  `datetime.time`, `datetime.timedelta`, `decimal.Decimal`;
* `Annotated[decimal.Decimal, DecimalMeta(precision, scale)]`
  (`decimalA`); the deprecated `DecimalType[p, s]` subscript form is
  outside the modelled universe;
* a forward reference (a string literal or a `typing.ForwardRef`, both of
  which carry the same name string);
* `List[item]` (origin `list`) and `Dict[key, value]` (origin `dict`);
* `Union[...]`;
* an `enum.Enum` subclass with its members in declaration order
  (member declaration lists model the class body; Python's enum machinery
  turns later members with an equal value into aliases);
* a dataclass, a Pydantic model (a class with `__fields__`), and a plain
  class, each carrying their `__name__`, declaring module, first docstring
  sentence (empty string when absent) and field list
  `(name, annotation, default-or-missing)`.  `typedInit` records whether
  `get_type_hints(cls.__init__)` is non-empty.  The modelled builtin and
  stdlib classes all have untyped C-level constructors. -/
inductive PyType where
  | boolT
  | bytesT
  | floatT
  | intT
  | strT
  | noneT
  | anyT
  | strSub (name : String) (module : Option String)
  | uuidT
  | dateT
  | dateTimeT
  | timeT
  | timeDeltaT
  | decimalT
  | decimalA (precision : Nat) (scale : Option Nat)
  | forwardT (name : String)
  | listT (item : PyType)
  | dictT (key : PyType) (value : PyType)
  | unionT (args : List PyType)
  | enumT (name : String) (module : Option String) (doc : String)
      (members : List (String × PyVal))
  | dataclassT (name : String) (module : Option String) (doc : String)
      (fields : List (String × PyType × Option PyVal))
  | pydanticT (name : String) (module : Option String) (doc : String)
      (fields : List (String × PyType × Option PyVal))
  | plainT (name : String) (module : Option String) (doc : String)
      (typedInit : Bool) (fields : List (String × PyType × Option PyVal))

/-- Errors raised by the generator (`TypeNotSupportedError`, `TypeError`,
`ValueError` instances), one constructor per distinct failure.
`recursionError` stands for exhausting the modelled recursion budget;
`internalError` marks branches unreachable under the dispatch predicates. -/
inductive PyErr where
  | typeNotSupported
  | invalidMapKey
  | invalidEnumMembers
  | missingDefault
  | defaultTypeMismatch
  | decimalPrecisionExceeded
  | decimalScaleExceeded
  | unsupportedDefault
  | naiveDatetime
  | invalidDecimalMeta
  | jsonEncodeError
  | recursionError
  | internalError
deriving DecidableEq, Repr

/-- `_type_from_annotated`: strip an `Annotated[principal, ...]` wrapper.
In the modelled universe the only `Annotated` form is the decimal one,
whose principal type is `decimal.Decimal`. -/
def _type_from_annotated : PyType → PyType
  | .decimalA _ _ => .decimalT
  | t => t

/-- `inspect.isclass`: which modelled type descriptions are classes.
Generic aliases (`List[...]`, `Dict[...]`, `Union[...]`, `Annotated[...]`),
`typing.Any`, string literals and `ForwardRef` objects are not classes. -/
def isPyClass : PyType → Bool
  | .anyT | .decimalA _ _ | .forwardT _ | .listT _ | .dictT _ _ | .unionT _ => false
  | _ => true

/-- `issubclass` on the modelled classes (no `Annotated` unwrapping here;
that is `_is_class`'s job).  The engine only ever tests against the fixed
stdlib classes appearing below as second argument, so the relation is
spelled out for those targets: reflexivity on the stdlib classes plus
`bool <= int`, `str` subclasses `<= str` and `datetime <= date`, exactly
the relations the dispatcher's predicates depend on. -/
def py_issubclass (a b : PyType) : Bool :=
  match a, b with
  | .boolT, .boolT => true
  | .boolT, .intT => true
  | .bytesT, .bytesT => true
  | .floatT, .floatT => true
  | .intT, .intT => true
  | .strT, .strT => true
  | .noneT, .noneT => true
  | .strSub _ _, .strT => true
  | .uuidT, .uuidT => true
  | .dateT, .dateT => true
  | .dateTimeT, .dateTimeT => true
  | .dateTimeT, .dateT => true
  | .timeT, .timeT => true
  | .timeDeltaT, .timeDeltaT => true
  | .decimalT, .decimalT => true
  | _, _ => false

/-- Equality of type descriptions as used by the source's exact-match
checks (`py_type == of_types` with `include_subclasses=False`).  Those
checks only ever target `str` and `NoneType`, so equality on the
non-parameterised constructors suffices. -/
def pyTypeEqSimple (a b : PyType) : Bool :=
  match a, b with
  | .boolT, .boolT => true
  | .bytesT, .bytesT => true
  | .floatT, .floatT => true
  | .intT, .intT => true
  | .strT, .strT => true
  | .noneT, .noneT => true
  | .anyT, .anyT => true
  | .uuidT, .uuidT => true
  | .dateT, .dateT => true
  | .dateTimeT, .dateTimeT => true
  | .timeT, .timeT => true
  | .timeDeltaT, .timeDeltaT => true
  | .decimalT, .decimalT => true
  | _, _ => false

/-- `_is_class(py_type, of_types, include_subclasses)` for a single target
type: unwrap `Annotated`, then either an `issubclass` check guarded by
`inspect.isclass`, or a plain equality check. -/
def _is_class (t target : PyType) (includeSubclasses : Bool) : Bool :=
  let t := _type_from_annotated t
  if includeSubclasses then isPyClass t && py_issubclass t target
  else pyTypeEqSimple t target

/-- `dataclasses.is_dataclass`. -/
def is_dataclass : PyType → Bool
  | .dataclassT _ _ _ _ => true
  | _ => false

/-- `hasattr(py_type, "__fields__")`: true exactly for Pydantic models in
the modelled universe. -/
def hasattr_fields : PyType → Bool
  | .pydanticT _ _ _ _ => true
  | _ => false

/-- Whether `get_type_hints(py_type.__init__)` is non-empty.  Dataclasses
and Pydantic models synthesise typed constructors; the modelled builtin and
stdlib classes have untyped ones. -/
def typed_init : PyType → Bool
  | .plainT _ _ _ typedInit _ => typedInit
  | .dataclassT _ _ _ _ => true
  | .pydanticT _ _ _ _ => true
  | _ => false

/-- `issubclass(py_type, enum.Enum)` (no unwrapping). -/
def isEnumClass : PyType → Bool
  | .enumT _ _ _ _ => true
  | _ => false

/-- `_is_dict_str_any`: origin is a `dict` subclass and args are exactly
`(str, Any)`. -/
def _is_dict_str_any : PyType → Bool
  | .dictT .strT .anyT => true
  | _ => false

/-- `_is_list_dict_str_any`: origin is a `list` subclass and the single arg
is a `Dict[str, Any]`. -/
def _is_list_dict_str_any : PyType → Bool
  | .listT item => _is_dict_str_any item
  | _ => false

/-- `module.__name__.split(".", 1)[0]`: the segment before the first dot,
or the whole name when it contains no dot. -/
def topLevelPackage (m : String) : String :=
  String.mk (m.toList.takeWhile (fun c => c ≠ '.'))

/-- `Schema.namespace`: the namespace property, combining the manual
override, the auto-namespace options and the declaring module name.  Note
the source compares the module name against the literal `"builtin"`. -/
def Schema_namespace (nsOverride : Option String) (options : Options)
    (module : Option String) : Option String :=
  match nsOverride, options.no_auto_namespace with
  | none, false =>
    match module with
    | some m =>
      if m ≠ "builtin" then
        if options.auto_namespace_module then some m else some (topLevelPackage m)
      else none
    | none => none
  | _, _ => nsOverride

/-- `NamedSchema.fullname`: namespace-qualified name. -/
def NamedSchema_fullname (name : String) (ns : Option String) : String :=
  match ns with
  | some n => n ++ "." ++ name
  | none => name

/-! ### Decimal default encoding (`DecimalSchema.make_default`) -/

/-- `int.bit_length()` for a non-negative integer, computed by repeated
halving.  The auxiliary fuel makes the recursion structural; `n` halvings
always suffice since the bit length of `n` never exceeds `n`. -/
def bit_length_aux : Nat → Nat → Nat
  | _, 0 => 0
  | 0, _ + 1 => 0
  | fuel + 1, n + 1 => bit_length_aux fuel ((n + 1) / 2) + 1

def bit_length (n : Nat) : Nat :=
  bit_length_aux n n

/-- One lowercase hex digit. -/
def hexDigit (n : Nat) : Char :=
  if n < 10 then Char.ofNat (48 + n) else Char.ofNat (87 + n)

/-- Two lowercase hex digits for one byte, as produced by `bytes.hex()`. -/
def byteToHex (b : Nat) : String :=
  String.mk [hexDigit (b / 16), hexDigit (b % 16)]

/-- `value.to_bytes(len, byteorder="big", signed=True).hex()`: the hex
rendering of the `len`-byte big-endian two's-complement representation. -/
def to_bytes_hex (len : Nat) (value : Int) : String :=
  let m : Nat := (value % ((2 : Int) ^ (8 * len))).toNat
  String.join ((List.range len).map (fun k => byteToHex ((m >>> (8 * (len - 1 - k))) % 256)))

/-- `DecimalSchema.make_default`, after annotation resolution: encode a
decimal default `(sign, digits, exp)` against a declared
`(precision, scale)`.  Scale is optional in Avro and interpreted as zero
when omitted (`meta.scale or 0`). -/
def DecimalSchema_make_default (precision : Nat) (scale : Option Nat)
    (sign : Bool) (digits : List Nat) (exp : Int) : Except PyErr String :=
  let scale := scale.getD 0
  if digits.length > precision then
    .error .decimalPrecisionExceeded
  else
    let delta : Int := exp + scale
    if delta < 0 then
      .error .decimalScaleExceeded
    else
      let unscaled_datum : Nat := digits.foldl (fun acc d => acc * 10 + d) 0
      let unscaled_datum : Nat := 10 ^ delta.toNat * unscaled_datum
      let bytes_req : Nat := (bit_length unscaled_datum + 8) / 8
      let signed_datum : Int := if sign then -(unscaled_datum : Int) else unscaled_datum
      .ok ("\\u" ++ to_bytes_hex bytes_req signed_datum)

/-! ### Time and datetime defaults -/

/-- `TimeSchema.make_default`: `int((dt2 - dt1).total_seconds() * 1e6)`
where both datetimes carry UTC, so the offset cancels and the result is the
microsecond count since midnight.  (The float rounding of `total_seconds`
is abstracted to exact arithmetic.) -/
def TimeSchema_make_default (hour minute second microsecond : Nat) : Int :=
  ((hour * 3600 + minute * 60 + second) * 1000000 + microsecond : Nat)

/-- `TimeSchema.data`: logical type per the MILLISECONDS option, base type
via the `type_by_logical_type` table. -/
def TimeSchema_data (options : Options) : JSONType :=
  let logical_type := if options.milliseconds then "time-millis" else "time-micros"
  let type_ := if logical_type = "time-millis" then "int" else "long"
  .jObj [("type", .jStr type_), ("logicalType", .jStr logical_type)]

/-- `DateTimeSchema.make_default`: requires a timezone-aware value, then
`int((dt - epoch).total_seconds() * 1e6)`, the microsecond count since the
epoch. -/
def DateTimeSchema_make_default (aware : Bool) (microsSinceEpoch : Int) :
    Except PyErr Int :=
  if !aware then .error .naiveDatetime else .ok microsSinceEpoch

/-- `DateTimeSchema.data`. -/
def DateTimeSchema_data (options : Options) : JSONType :=
  let logical_type := if options.milliseconds then "timestamp-millis" else "timestamp-micros"
  .jObj [("type", .jStr "long"), ("logicalType", .jStr logical_type)]

/-- `DateSchema.make_default`: `(d - datetime.date(1970, 1, 1)).days`; the
date value already carries that day count. -/
def DateSchema_make_default (daysSinceEpoch : Int) : Int :=
  daysSinceEpoch

/-! ### Union default alignment (`UnionSchema.sort_item_schemas`) -/

/-- `UnionSchema.sort_item_schemas`: scan for the first branch whose
originating Python type accepts the default (the loop with `break`; modelled
by `findIdx?`), then `pop` it and re-`insert` it at position 0 when it was
found strictly after the front.  The unreachable inner branch covers the
impossible case of `findIdx?` returning an out-of-range index. -/
def UnionSchema_sort_item_schemas {α : Type} (check : α → Bool)
    (items : List α) : List α :=
  match items.findIdx? check with
  | some default_index =>
    if 0 < default_index then
      match items[default_index]? with
      | some default_item_schema => default_item_schema :: items.eraseIdx default_index
      | none => items
    else items
  | none => items

/-! ### Enum symbols (`EnumSchema.__init__`) -/

/-- First-occurrence deduplication.  Models Python's enum machinery: a
member whose value equals an earlier member's value becomes an alias and is
skipped by iteration, so `[member.value for member in py_type]` yields the
values in declaration order with later duplicates dropped.  The auxiliary
fuel makes the recursion structural; the last branch is unreachable when
the fuel is at least the list length, because filtering never lengthens a
list. -/
def dedupFirstAux {α : Type} [BEq α] : Nat → List α → List α
  | _, [] => []
  | fuel + 1, x :: xs => x :: dedupFirstAux fuel (xs.filter (fun y => !(y == x)))
  | 0, x :: xs => x :: xs

def dedupFirst {α : Type} [BEq α] (l : List α) : List α :=
  dedupFirstAux l.length l

/-- The member values visible to `EnumSchema.__init__`'s iteration. -/
def enumIterValues (members : List (String × PyVal)) : List PyVal :=
  dedupFirst (members.map Prod.snd)

/-- `EnumSchema.__init__`: collect symbols, then require the set of their
exact types to equal `{str}` (so a non-string value, or an empty enum,
raises).  On success the symbols are returned as strings. -/
def EnumSchema_init (members : List (String × PyVal)) : Except PyErr (List String) :=
  let symbols := enumIterValues members
  if dedupFirst (symbols.map PyVal.typeName) ≠ ["str"] then
    .error .invalidEnumMembers
  else
    .ok (symbols.filterMap PyVal.asString)

/-! ### The builder variants and their `handles_type` predicates -/

/-- `PrimitiveSchema.primitive_types`: `(Python type, include subclasses,
Avro schema)` rows, in source order. -/
def PrimitiveSchema_primitive_types : List (PyType × Bool × String) :=
  [(.boolT, true, "boolean"),
   (.bytesT, true, "bytes"),
   (.floatT, true, "double"),
   (.intT, true, "long"),
   (.strT, false, "string"),
   (.noneT, false, "null")]

/-- `PrimitiveSchema.handles_type`. -/
def PrimitiveSchema_handles (t : PyType) : Bool :=
  PrimitiveSchema_primitive_types.any (fun e => _is_class t e.1 e.2.1)

/-- `PrimitiveSchema.data`: the 32-bit option checks short-circuit the
table; note they test `issubclass` against `int`/`float` on the raw type.
The final fallback is unreachable because `handles_type` applies first. -/
def PrimitiveSchema_data (options : Options) (t : PyType) : String :=
  if options.int_32 && py_issubclass t .intT then "int"
  else if options.float_32 && py_issubclass t .floatT then "float"
  else
    match PrimitiveSchema_primitive_types.find? (fun e => _is_class t e.1 e.2.1) with
    | some e => e.2.2
    | none => ""

/-- `StrSubclassSchema.handles_type`: a proper subclass of `str` that is
not an enum. -/
def StrSubclassSchema_handles (t : PyType) : Bool :=
  isPyClass t && py_issubclass t .strT && !pyTypeEqSimple t .strT && !isEnumClass t

/-- `DictAsJSONSchema.handles_type`. -/
def DictAsJSONSchema_handles (t : PyType) : Bool :=
  _is_dict_str_any t || _is_list_dict_str_any t

/-- `DictAsJSONSchema.data`. -/
def DictAsJSONSchema_data (options : Options) : JSONType :=
  let type_ := if options.logical_json_string then "string" else "bytes"
  .jObj [("type", .jStr type_), ("logicalType", .jStr "json")]

/-- `UUIDSchema.handles_type`. -/
def UUIDSchema_handles (t : PyType) : Bool :=
  _is_class t .uuidT true

/-- `DateSchema.handles_type`: a date that is not a datetime. -/
def DateSchema_handles (t : PyType) : Bool :=
  _is_class t .dateT true && !_is_class t .dateTimeT true

/-- `TimeSchema.handles_type`. -/
def TimeSchema_handles (t : PyType) : Bool :=
  _is_class t .timeT true

/-- `DateTimeSchema.handles_type`. -/
def DateTimeSchema_handles (t : PyType) : Bool :=
  _is_class t .dateTimeT true

/-- `TimeDeltaSchema.handles_type`. -/
def TimeDeltaSchema_handles (t : PyType) : Bool :=
  _is_class t .timeDeltaT true

/-- `ForwardSchema.handles_type`: a string literal or a `ForwardRef`. -/
def ForwardSchema_handles (t : PyType) : Bool :=
  match t with
  | .forwardT _ => true
  | _ => false

/-- `DecimalSchema.handles_type` is greedy: any `decimal.Decimal`, however
annotated (resolution of the annotation may fail later).  The deprecated
`DecimalType[p, s]` subscript form is outside the modelled universe. -/
def DecimalSchema_handles (t : PyType) : Bool :=
  _is_class t .decimalT true

/-- `DecimalSchema._decimal_meta`: resolve the precision/scale annotation,
failing on a bare `decimal.Decimal` or any other unsupported shape. -/
def DecimalSchema_decimal_meta : PyType → Except PyErr (Nat × Option Nat)
  | .decimalA precision scale => .ok (precision, scale)
  | _ => .error .invalidDecimalMeta

/-- `DecimalSchema.data`: scale is emitted only when the annotation gives
one. -/
def DecimalSchema_data (t : PyType) : Except PyErr JSONType :=
  match DecimalSchema_decimal_meta t with
  | .error e => .error e
  | .ok (precision, scale) =>
    .ok (.jObj ([("type", .jStr "bytes"), ("logicalType", .jStr "decimal"),
                 ("precision", .jNum precision)] ++
      match scale with
      | some s => [("scale", .jNum s)]
      | none => []))

/-- `SequenceSchema.handles_type`: the origin is a `Sequence` subclass.
`listT` models `List[...]`, whose origin `list` is one. -/
def SequenceSchema_handles (t : PyType) : Bool :=
  match _type_from_annotated t with
  | .listT _ => true
  | _ => false

/-- `DictSchema.handles_type`: the origin is a `Mapping` subclass and the
value type is not `Any` (`Any`-valued mappings are left to
`DictAsJSONSchema`). -/
def DictSchema_handles (t : PyType) : Bool :=
  match _type_from_annotated t with
  | .dictT _ .anyT => false
  | .dictT _ _ => true
  | _ => false

/-- `UnionSchema.handles_type`. -/
def UnionSchema_handles (t : PyType) : Bool :=
  match _type_from_annotated t with
  | .unionT _ => true
  | _ => false

/-- `EnumSchema.handles_type`: `_is_class(py_type, enum.Enum)`. -/
def EnumSchema_handles (t : PyType) : Bool :=
  let t := _type_from_annotated t
  isPyClass t && isEnumClass t

/-- `DataclassSchema.handles_type`. -/
def DataclassSchema_handles (t : PyType) : Bool :=
  is_dataclass (_type_from_annotated t)

/-- `PydanticSchema.handles_type`: `hasattr(py_type, "__fields__")`. -/
def PydanticSchema_handles (t : PyType) : Bool :=
  hasattr_fields (_type_from_annotated t)

/-- `PlainClassSchema.handles_type`: not a dataclass, not a Pydantic
model, a class that does not subclass `str`, and a typed `__init__`. -/
def PlainClassSchema_handles (t : PyType) : Bool :=
  let t := _type_from_annotated t
  !is_dataclass t && !hasattr_fields t &&
    (isPyClass t && !py_issubclass t .strT) && typed_init t

/-- The concrete (non-abstract) `Schema` subclasses of the module. -/
inductive SchemaClass where
  | dataclassSchema
  | dateSchema
  | dateTimeSchema
  | decimalSchema
  | dictAsJSONSchema
  | dictSchema
  | enumSchema
  | forwardSchema
  | plainClassSchema
  | primitiveSchema
  | pydanticSchema
  | sequenceSchema
  | strSubclassSchema
  | timeDeltaSchema
  | timeSchema
  | uuidSchema
  | unionSchema
deriving DecidableEq, Repr

/-- The trial order of `_schema_obj`: `inspect.getmembers` returns the
module's concrete `Schema` subclasses sorted by class name.  The sort is
plain string order on ASCII, so `UUIDSchema` (uppercase `U` at index 1)
precedes `UnionSchema` (lowercase `n`). -/
def schema_classes : List SchemaClass :=
  [.dataclassSchema, .dateSchema, .dateTimeSchema, .decimalSchema,
   .dictAsJSONSchema, .dictSchema, .enumSchema, .forwardSchema,
   .plainClassSchema, .primitiveSchema, .pydanticSchema, .sequenceSchema,
   .strSubclassSchema, .timeDeltaSchema, .timeSchema, .uuidSchema,
   .unionSchema]

/-- `handles_type` dispatched per class. -/
def handles_type (c : SchemaClass) (t : PyType) : Bool :=
  match c with
  | .dataclassSchema => DataclassSchema_handles t
  | .dateSchema => DateSchema_handles t
  | .dateTimeSchema => DateTimeSchema_handles t
  | .decimalSchema => DecimalSchema_handles t
  | .dictAsJSONSchema => DictAsJSONSchema_handles t
  | .dictSchema => DictSchema_handles t
  | .enumSchema => EnumSchema_handles t
  | .forwardSchema => ForwardSchema_handles t
  | .plainClassSchema => PlainClassSchema_handles t
  | .primitiveSchema => PrimitiveSchema_handles t
  | .pydanticSchema => PydanticSchema_handles t
  | .sequenceSchema => SequenceSchema_handles t
  | .strSubclassSchema => StrSubclassSchema_handles t
  | .timeDeltaSchema => TimeDeltaSchema_handles t
  | .timeSchema => TimeSchema_handles t
  | .uuidSchema => UUIDSchema_handles t
  | .unionSchema => UnionSchema_handles t

/-! ### Constructed schema objects -/

/-- A constructed `Schema` instance, after `__init__` but before `data()`.
Nested schemas are resolved eagerly at construction just as in the source
(sequences, mappings, unions, record fields).  Union branches keep their
originating Python type alongside the branch schema, because both
`sort_item_schemas` and the union's own identity depend on it.  Named
schemas store their resolved namespace; the namespace property is a
deterministic function of the override, the options and the declaring
module, so resolving it at construction is equivalent to the source's lazy
property.  A record field is `(name, branch schema, default-or-missing)`;
field documentation strings (Pydantic descriptions) are outside the
modelled universe. -/
inductive SchemaObj where
  | primitive (t : PyType)
  | strSubclass (fullname : String)
  | dictAsJson
  | uuidObj
  | dateObj
  | timeObj
  | dateTimeObj
  | timeDeltaObj
  | decimalObj (t : PyType)
  | forwardObj (name : String)
  | sequenceObj (items : SchemaObj)
  | dictObj (values : SchemaObj)
  | unionObj (items : List (PyType × SchemaObj))
  | enumObj (name : String) (ns : Option String) (doc : String) (symbols : List String)
  | recordObj (name : String) (ns : Option String) (doc : String)
      (fields : List (String × SchemaObj × Option PyVal))

mutual

/-- A model of the external `typeguard.check_type` on the fragment of
types and values in the modelled universe: `True` when the value is an
instance of the annotation (`bool` values also satisfy `int`, any value
satisfies `Any`, and a union is satisfied by any of its branches). -/
def typeguard_check_type (v : PyVal) (t : PyType) : Bool :=
  match t with
  | .anyT => true
  | .unionT args => typeguard_check_any v args
  | .noneT => v.typeName = "NoneType"
  | .boolT => v.typeName = "bool"
  | .intT => v.typeName = "int" || v.typeName = "bool"
  | .strT => v.typeName = "str"
  | .strSub _ _ => false
  | .bytesT => false
  | .floatT => false
  | .uuidT => v.typeName = "UUID"
  | .dateT => v.typeName = "date" || v.typeName = "datetime"
  | .dateTimeT => v.typeName = "datetime"
  | .timeT => v.typeName = "time"
  | .timeDeltaT => v.typeName = "timedelta"
  | .decimalT => v.typeName = "Decimal"
  | .decimalA _ _ => v.typeName = "Decimal"
  | .forwardT _ => false
  | .listT _ => false
  | .dictT _ _ => false
  | .enumT _ _ _ _ => false
  | .dataclassT _ _ _ _ => false
  | .pydanticT _ _ _ _ => false
  | .plainT _ _ _ _ _ => false
/-- Any branch of a union accepts the value. -/
def typeguard_check_any (v : PyVal) : List PyType → Bool
  | [] => false
  | t :: ts => typeguard_check_type v t || typeguard_check_any v ts

end

/-! ### Construction (`Schema.__init__` per class, and `_schema_obj`) -/

/-- `RecordField.__init__`: resolve the field's schema, and when a default
is present, first re-order a union schema so the branch matching the
default comes first, then type-check the default against the declared
type.  Without a default, the DEFAULTS_MANDATORY option makes the field
fail. -/
def RecordField_mk (recur : PyType → Except PyErr SchemaObj) (options : Options)
    (fieldName : String) (ft : PyType) (default : Option PyVal) :
    Except PyErr (String × SchemaObj × Option PyVal) :=
  match recur ft with
  | .error e => .error e
  | .ok s =>
    match default with
    | some d =>
      let s := match s with
        | .unionObj items =>
          .unionObj (UnionSchema_sort_item_schemas
            (fun item => typeguard_check_type d item.1) items)
        | s' => s'
      if typeguard_check_type d ft then .ok (fieldName, s, some d)
      else .error .defaultTypeMismatch
    | none =>
      if options.defaults_mandatory then .error .missingDefault
      else .ok (fieldName, s, none)

/-- Build the record fields of a record-like class, in declaration order. -/
def buildRecordFields (recur : PyType → Except PyErr SchemaObj) (options : Options) :
    List (String × PyType × Option PyVal) →
    Except PyErr (List (String × SchemaObj × Option PyVal))
  | [] => .ok []
  | (n, ft, d) :: rest =>
    match RecordField_mk recur options n ft d with
    | .error e => .error e
    | .ok f =>
      match buildRecordFields recur options rest with
      | .error e => .error e
      | .ok fs => .ok (f :: fs)

/-- `UnionSchema.__init__`: resolve every branch eagerly, keeping each
branch's originating Python type. -/
def buildUnionItems (recur : PyType → Except PyErr SchemaObj) :
    List PyType → Except PyErr (List (PyType × SchemaObj))
  | [] => .ok []
  | t :: ts =>
    match recur t with
    | .error e => .error e
    | .ok s =>
      match buildUnionItems recur ts with
      | .error e => .error e
      | .ok ss => .ok ((t, s) :: ss)

/-- The `__init__` of the selected `Schema` subclass.  `recur` is the
recursive `_schema_obj` invocation used for eagerly resolved nested
schemas; it carries the same namespace override and options, exactly as
the source threads them.  `internalError` marks branches the dispatch
predicate makes unreachable. -/
def Schema_build (recur : PyType → Except PyErr SchemaObj) (options : Options)
    (ns : Option String) (c : SchemaClass) (t : PyType) : Except PyErr SchemaObj :=
  match c with
  | .primitiveSchema => .ok (.primitive t)
  | .strSubclassSchema =>
    match t with
    | .strSub name module =>
      .ok (.strSubclass (NamedSchema_fullname name (Schema_namespace ns options module)))
    | _ => .error .internalError
  | .dictAsJSONSchema => .ok .dictAsJson
  | .uuidSchema => .ok .uuidObj
  | .dateSchema => .ok .dateObj
  | .timeSchema => .ok .timeObj
  | .dateTimeSchema => .ok .dateTimeObj
  | .timeDeltaSchema => .ok .timeDeltaObj
  | .decimalSchema => .ok (.decimalObj t)
  | .forwardSchema =>
    match t with
    | .forwardT s => .ok (.forwardObj s)
    | _ => .error .internalError
  | .sequenceSchema =>
    match _type_from_annotated t with
    | .listT item =>
      match recur item with
      | .ok s => .ok (.sequenceObj s)
      | .error e => .error e
    | _ => .error .internalError
  | .dictSchema =>
    match _type_from_annotated t with
    | .dictT .strT v =>
      match recur v with
      | .ok s => .ok (.dictObj s)
      | .error e => .error e
    | .dictT _ _ => .error .invalidMapKey
    | _ => .error .internalError
  | .unionSchema =>
    match _type_from_annotated t with
    | .unionT args =>
      match buildUnionItems recur args with
      | .ok items => .ok (.unionObj items)
      | .error e => .error e
    | _ => .error .internalError
  | .enumSchema =>
    match _type_from_annotated t with
    | .enumT name module doc members =>
      match EnumSchema_init members with
      | .ok symbols => .ok (.enumObj name (Schema_namespace ns options module) doc symbols)
      | .error e => .error e
    | _ => .error .internalError
  | .dataclassSchema =>
    match _type_from_annotated t with
    | .dataclassT name module doc fields =>
      match buildRecordFields recur options fields with
      | .ok fs => .ok (.recordObj name (Schema_namespace ns options module) doc fs)
      | .error e => .error e
    | _ => .error .internalError
  | .pydanticSchema =>
    match _type_from_annotated t with
    | .pydanticT name module doc fields =>
      match buildRecordFields recur options fields with
      | .ok fs => .ok (.recordObj name (Schema_namespace ns options module) doc fs)
      | .error e => .error e
    | _ => .error .internalError
  | .plainClassSchema =>
    match _type_from_annotated t with
    | .plainT name module doc _ fields =>
      match buildRecordFields recur options fields with
      | .ok fs => .ok (.recordObj name (Schema_namespace ns options module) doc fs)
      | .error e => .error e
    | _ => .error .internalError

/-- `_schema_obj`: try each concrete schema class in `schema_classes`
order; the first whose `handles_type` accepts the type is constructed
(`find?` models the source's first-match loop, since `__init__` only runs
after the `handles_type` test in `__new__` succeeds).  When no class
matches, raise `TypeNotSupportedError`.  The fuel bounds the construction
recursion depth. -/
def _schema_obj (options : Options) (ns : Option String) :
    Nat → PyType → Except PyErr SchemaObj
  | 0, _ => .error .recursionError
  | fuel + 1, t =>
    match schema_classes.find? (fun c => handles_type c t) with
    | some c => Schema_build (fun u => _schema_obj options ns fuel u) options ns c t
    | none => .error .typeNotSupported

/-! ### Default-value encoding (`make_default`) -/

/-- `Schema.make_default` base behaviour: the Python default value itself
becomes the JSON default.  Values with no JSON form are rejected (the
external JSON encoder would fail on them). -/
def pyValToJson : PyVal → Except PyErr JSONType
  | .vNone => .ok .jNull
  | .vBool b => .ok (.jBool b)
  | .vInt n => .ok (.jNum n)
  | .vStr s => .ok (.jStr s)
  | _ => .error .jsonEncodeError

/-- A model of the external `orjson.dumps(...).decode()` on the scalar
values of the modelled universe (string escaping not modelled). -/
def orjson_dumps : PyVal → String
  | .vNone => "null"
  | .vBool true => "true"
  | .vBool false => "false"
  | .vInt n => toString n
  | .vStr s => "\"" ++ s ++ "\""
  | _ => ""

/-- `make_default` dispatched on the schema object, per the source's
overrides; every other class inherits the base pass-through.  The
`internalError` rows cover value shapes the field's earlier
`typeguard.check_type` validation excludes. -/
def Schema_make_default (s : SchemaObj) (v : PyVal) : Except PyErr JSONType :=
  match s, v with
  | .dictAsJson, v => .ok (.jStr (orjson_dumps v))
  | .uuidObj, _ => .ok (.jStr "")
  | .dateObj, .vDate days => .ok (.jNum (DateSchema_make_default days))
  | .dateObj, _ => .error .internalError
  | .timeObj, .vTime h m sec micro => .ok (.jNum (TimeSchema_make_default h m sec micro))
  | .timeObj, _ => .error .internalError
  | .dateTimeObj, .vDateTime aware micros =>
    match DateTimeSchema_make_default aware micros with
    | .ok n => .ok (.jNum n)
    | .error e => .error e
  | .dateTimeObj, _ => .error .internalError
  | .timeDeltaObj, _ => .error .unsupportedDefault
  | .decimalObj t, .vDecimal sign digits exp =>
    match DecimalSchema_decimal_meta t with
    | .ok (precision, scale) =>
      match DecimalSchema_make_default precision scale sign digits exp with
      | .ok str => .ok (.jStr str)
      | .error e => .error e
    | .error e => .error e
  | .decimalObj _, _ => .error .internalError
  | _, v => pyValToJson v

/-! ### Rendering (`data`) -/

/-- `EnumSchema.data_before_deduplication`: the enum's own `default` is
forced to the first symbol; namespace and doc are appended when present. -/
def EnumSchema_data_before_dedup (options : Options) (name : String)
    (ns : Option String) (doc : String) (symbols : List String) : JSONType :=
  .jObj ([("type", .jStr "enum"), ("name", .jStr name),
          ("symbols", .jArr (symbols.map .jStr)),
          ("default", .jStr (symbols.headD ""))] ++
    (match ns with
     | some n => [("namespace", .jStr n)]
     | none => []) ++
    (if !options.no_doc && doc ≠ "" then [("doc", .jStr doc)] else []))

/-- `RecordSchema.data_before_deduplication`, applied to already-rendered
field data. -/
def RecordSchema_data_before_dedup (options : Options) (name : String)
    (ns : Option String) (doc : String) (fieldData : List JSONType) : JSONType :=
  .jObj ([("type", .jStr "record"), ("name", .jStr name),
          ("fields", .jArr fieldData)] ++
    (match ns with
     | some n => [("namespace", .jStr n)]
     | none => []) ++
    (if !options.no_doc && doc ≠ "" then [("doc", .jStr doc)] else []))

/-- Render a list of schemas left to right, threading the names list. -/
def dataList (recur : SchemaObj → NamesType → Except PyErr (JSONType × NamesType)) :
    List SchemaObj → NamesType → Except PyErr (List JSONType × NamesType)
  | [], names => .ok ([], names)
  | s :: rest, names =>
    match recur s names with
    | .error e => .error e
    | .ok (d, names') =>
      match dataList recur rest names' with
      | .error e => .error e
      | .ok (ds, names'') => .ok (d :: ds, names'')

/-- `RecordField.data`: name and type always; the encoded default only
when one was declared. -/
def RecordField_data
    (recur : SchemaObj → NamesType → Except PyErr (JSONType × NamesType))
    (fieldName : String) (s : SchemaObj) (default : Option PyVal)
    (names : NamesType) : Except PyErr (JSONType × NamesType) :=
  match recur s names with
  | .error e => .error e
  | .ok (td, names') =>
    match default with
    | some d =>
      match Schema_make_default s d with
      | .error e => .error e
      | .ok dj =>
        .ok (.jObj [("name", .jStr fieldName), ("type", td), ("default", dj)], names')
    | none => .ok (.jObj [("name", .jStr fieldName), ("type", td)], names')

/-- Render the fields of a record, threading the names list. -/
def dataFields
    (recur : SchemaObj → NamesType → Except PyErr (JSONType × NamesType)) :
    List (String × SchemaObj × Option PyVal) → NamesType →
    Except PyErr (List JSONType × NamesType)
  | [], names => .ok ([], names)
  | (n, s, d) :: rest, names =>
    match RecordField_data recur n s d names with
    | .error e => .error e
    | .ok (fd, names') =>
      match dataFields recur rest names' with
      | .error e => .error e
      | .ok (fds, names'') => .ok (fd :: fds, names'')

/-- `Schema.data` for every schema-object shape.  Named schemas
(`NamedSchema.data`) first test whether their full name was already
rendered in this call: if so only the bare full-name string is produced;
otherwise the full name is appended to the names list and the full
definition is rendered (a record recursing into its fields with the
updated list).  The fuel bounds the rendering recursion depth. -/
def Schema_data (options : Options) :
    Nat → SchemaObj → NamesType → Except PyErr (JSONType × NamesType)
  | 0, _, _ => .error .recursionError
  | fuel + 1, s, names =>
    match s with
    | .primitive t => .ok (.jStr (PrimitiveSchema_data options t), names)
    | .strSubclass fullname =>
      .ok (.jObj [("type", .jStr "string"), ("namedString", .jStr fullname)], names)
    | .dictAsJson => .ok (DictAsJSONSchema_data options, names)
    | .uuidObj =>
      .ok (.jObj [("type", .jStr "string"), ("logicalType", .jStr "uuid")], names)
    | .dateObj =>
      .ok (.jObj [("type", .jStr "int"), ("logicalType", .jStr "date")], names)
    | .timeObj => .ok (TimeSchema_data options, names)
    | .dateTimeObj => .ok (DateTimeSchema_data options, names)
    | .timeDeltaObj =>
      .ok (.jObj [("type", .jStr "fixed"), ("name", .jStr "datetime.timedelta"),
                  ("size", .jNum 12), ("logicalType", .jStr "duration")], names)
    | .decimalObj t =>
      match DecimalSchema_data t with
      | .ok d => .ok (d, names)
      | .error e => .error e
    | .forwardObj n => .ok (.jStr n, names)
    | .sequenceObj item =>
      match Schema_data options fuel item names with
      | .ok (d, names') => .ok (.jObj [("type", .jStr "array"), ("items", d)], names')
      | .error e => .error e
    | .dictObj values =>
      match Schema_data options fuel values names with
      | .ok (d, names') => .ok (.jObj [("type", .jStr "map"), ("values", d)], names')
      | .error e => .error e
    | .unionObj items =>
      match dataList (fun o nm => Schema_data options fuel o nm) (items.map Prod.snd) names with
      | .ok (ds, names') => .ok (.jArr ds, names')
      | .error e => .error e
    | .enumObj name ns doc symbols =>
      let fn := NamedSchema_fullname name ns
      if fn ∈ names then .ok (.jStr fn, names)
      else .ok (EnumSchema_data_before_dedup options name ns doc symbols, names ++ [fn])
    | .recordObj name ns doc fields =>
      let fn := NamedSchema_fullname name ns
      if fn ∈ names then .ok (.jStr fn, names)
      else
        match dataFields (fun o nm => Schema_data options fuel o nm) fields (names ++ [fn]) with
        | .ok (fds, names') =>
          .ok (RecordSchema_data_before_dedup options name ns doc fds, names')
        | .error e => .error e

/-- The top-level `schema(py_type, namespace, names, options)` entry
point: construct the schema object, then render it with a fresh names
list. -/
def schema (options : Options) (ns : Option String) (fuel : Nat) (t : PyType) :
    Except PyErr JSONType :=
  match _schema_obj options ns fuel t with
  | .error e => .error e
  | .ok obj =>
    match Schema_data options fuel obj [] with
    | .ok (d, _) => .ok d
    | .error e => .error e

/-! ### Option sets used in concrete statements -/

/-- `Option.INT_32` alone. -/
def optsInt32 : Options := ⟨true, false, false, false, false, false, false, false, false⟩

/-- `Option.MILLISECONDS` alone. -/
def optsMs : Options := ⟨false, false, true, false, false, false, false, false, false⟩

/-- `Option.NO_AUTO_NAMESPACE` alone. -/
def optsNoAuto : Options := ⟨false, false, false, false, false, true, false, false, false⟩

/-- `Option.AUTO_NAMESPACE_MODULE` alone. -/
def optsAutoModule : Options := ⟨false, false, false, false, false, false, true, false, false⟩

/-! ### Helper lemmas -/

/-- `find?` returns the element at the first index whose predicate holds. -/
theorem find?_eq_some_of_first {α : Type} (p : α → Bool) :
    ∀ (l : List α) (i : Nat) (c : α), l[i]? = some c → p c = true →
      (l.take i).all (fun x => !p x) = true → l.find? p = some c := by
  intro l
  induction l with
  | nil => intro i c h; simp at h
  | cons x xs ih =>
    intro i c hget hp hall
    cases i with
    | zero =>
      simp only [List.getElem?_cons_zero, Option.some.injEq] at hget
      subst hget
      simp [List.find?_cons, hp]
    | succ n =>
      simp only [List.getElem?_cons_succ] at hget
      simp only [List.take_succ_cons, List.all_cons, Bool.and_eq_true, Bool.not_eq_true'] at hall
      simp [List.find?_cons, hall.1]
      exact ih n c hget hp (by simpa using hall.2)

/-! ### Claim C2 (dispatch order) -/

/-- Claim C2, counterexample: the dispatcher tests the builder variants in
alphabetical class-name order, not primitives-first.  `DictSchema` (a
container variant, index 5) is tested before `PrimitiveSchema` (index 9),
and `UnionSchema` (index 16) is tested after every named/record variant
(`DataclassSchema` is index 0), refuting the claimed group order. -/
theorem claim_C2_counterexample :
    schema_classes[0]? = some SchemaClass.dataclassSchema
  ∧ schema_classes[5]? = some SchemaClass.dictSchema
  ∧ schema_classes[9]? = some SchemaClass.primitiveSchema
  ∧ schema_classes[16]? = some SchemaClass.unionSchema :=
  ⟨rfl, rfl, rfl, rfl⟩

/-- Claim C2, amended: `_schema_obj` tests the variants' `handles_type`
predicates in the fixed `schema_classes` order (alphabetical by class
name, as produced by `inspect.getmembers`); the first variant whose
predicate matches is the one constructed, and when no variant matches the
generation fails with the type-not-supported error. -/
theorem claim_C2_amended_dispatch (options : Options) (ns : Option String)
    (fuel : Nat) (t : PyType) :
    ((∀ c ∈ schema_classes, handles_type c t = false) →
      _schema_obj options ns (fuel + 1) t = .error .typeNotSupported)
  ∧ (∀ i c, schema_classes[i]? = some c → handles_type c t = true →
      (schema_classes.take i).all (fun c' => !handles_type c' t) = true →
      _schema_obj options ns (fuel + 1) t
        = Schema_build (fun u => _schema_obj options ns fuel u) options ns c t) := by
  constructor
  · intro h
    have hnone : schema_classes.find? (fun c => handles_type c t) = none := by
      rw [List.find?_eq_none]
      intro c hc
      simp [h c hc]
    simp [_schema_obj, hnone]
  · intro i c hget hp htake
    have hsome : schema_classes.find? (fun c => handles_type c t) = some c :=
      find?_eq_some_of_first _ _ i c hget hp htake
    simp [_schema_obj, hsome]

/-- Witness for the amended claim C2: `typing.Any` matches no variant and
fails with the type-not-supported error; `int` is handled first by
`PrimitiveSchema` at index 9, all nine variants before it rejecting it. -/
theorem claim_C2_amended_witness :
    _schema_obj defaultOptions none 1 PyType.anyT = .error .typeNotSupported
  ∧ _schema_obj defaultOptions none 2 PyType.intT
      = Schema_build (fun u => _schema_obj defaultOptions none 1 u) defaultOptions none
          .primitiveSchema .intT :=
  ⟨(claim_C2_amended_dispatch defaultOptions none 0 .anyT).1 (by decide),
   (claim_C2_amended_dispatch defaultOptions none 1 .intT).2 9 .primitiveSchema rfl rfl rfl⟩

/-! ### Claim C5 (union default alignment) -/

/-- Claim C5: `sort_item_schemas` scans the branches in order for the
first one whose originating type accepts the default; that branch is moved
to position 0 with the others' relative order preserved (the result is the
branch followed by the prefix before it and the suffix after it); a match
already at position 0, or no match at all, leaves the order unchanged. -/
theorem claim_C5_union_sort {α : Type} (check : α → Bool) (items : List α) :
    (items.findIdx? check = none → UnionSchema_sort_item_schemas check items = items)
  ∧ (items.findIdx? check = some 0 → UnionSchema_sort_item_schemas check items = items)
  ∧ (∀ i x, items.findIdx? check = some i → 0 < i → items[i]? = some x →
      UnionSchema_sort_item_schemas check items
        = x :: (items.take i ++ items.drop (i + 1)))
  ∧ (∀ i, items.findIdx? check = some i →
      ∃ x, items[i]? = some x ∧ check x = true ∧
        ∀ j, j < i → ∀ y, items[j]? = some y → check y = false) := by
  refine ⟨?_, ?_, ?_, ?_⟩
  · intro h
    simp [UnionSchema_sort_item_schemas, h]
  · intro h
    simp [UnionSchema_sort_item_schemas, h]
  · intro i x h hi hx
    simp [UnionSchema_sort_item_schemas, h, hi, hx, List.eraseIdx_eq_take_drop_succ]
  · intro i h
    rw [List.findIdx?_eq_some_iff_findIdx_eq] at h
    obtain ⟨hlt, hidx⟩ := h
    refine ⟨items[i], by simp [List.getElem?_eq_some]; omega, ?_, ?_⟩
    · subst hidx
      exact List.findIdx_getElem
    · intro j hj y hy
      have hjl : j < items.length := by omega
      have : items[j] = y := by
        rw [List.getElem?_eq_some] at hy
        obtain ⟨_, h'⟩ := hy
        exact h'
      subst this
      exact List.not_of_lt_findIdx (by omega)

/-- Witness for claim C5: `Optional[str]` with default `None` — the null
branch is at index 1, the type check rejects the string branch, and the
sort promotes the null branch to the front. -/
theorem claim_C5_witness :
    UnionSchema_sort_item_schemas (fun t => typeguard_check_type .vNone t)
      [PyType.strT, PyType.noneT] = [PyType.noneT, PyType.strT] := by
  have h := (claim_C5_union_sort (fun t => typeguard_check_type .vNone t)
    [PyType.strT, PyType.noneT]).2.2.1 1 .noneT (by rfl) (by omega) (by rfl)
  simpa using h

/-! ### Claim C10 (Any-valued mapping with non-string keys) -/

/-- Claim C10: for `Dict[int, Any]` the map builder's predicate rejects
the `Any`-valued mapping before key validation can run, the JSON-as-bytes
builder accepts only `Dict[str, Any]` shapes, and no builder at all
matches, so generation raises the type-not-supported error — not the
non-string-key error that `Dict[int, str]` produces. -/
theorem claim_C10_dict_int_any :
    DictSchema_handles (PyType.dictT .intT .anyT) = false
  ∧ DictAsJSONSchema_handles (PyType.dictT .intT .anyT) = false
  ∧ schema_classes.all (fun c => !handles_type c (PyType.dictT .intT .anyT)) = true
  ∧ _schema_obj defaultOptions none 1 (PyType.dictT .intT .anyT) = .error .typeNotSupported
  ∧ _schema_obj defaultOptions none 1 (PyType.dictT .intT .strT) = .error .invalidMapKey :=
  ⟨rfl, rfl, rfl, rfl, rfl⟩

/-! ### Claim C6 (primitive table) -/

/-- Claim C6, counterexample: with the INT_32 option the boolean type does
not render `"boolean"` — Python's `bool` is a subclass of `int`, so the
32-bit integer branch of `PrimitiveSchema.data` catches it first and
renders `"int"`. -/
theorem claim_C6_counterexample :
    PrimitiveSchema_data optsInt32 PyType.boolT ≠ "boolean" := by
  intro h
  simp [PrimitiveSchema_data, optsInt32, py_issubclass] at h

/-- Claim C6, amended: the primitive table holds as claimed except for the
boolean row under INT_32: boolean renders `"boolean"` unless INT_32 is set
(in which case, `bool` being an `int` subclass, it renders `"int"`); bytes
always `"bytes"`; float `"double"` or `"float"` under FLOAT_32; int
`"long"` or `"int"` under INT_32; exact `str` `"string"`; the none type
`"null"`. -/
theorem claim_C6_amended_primitive_table (options : Options) :
    PrimitiveSchema_data options .boolT = (if options.int_32 then "int" else "boolean")
  ∧ PrimitiveSchema_data options .bytesT = "bytes"
  ∧ PrimitiveSchema_data options .floatT = (if options.float_32 then "float" else "double")
  ∧ PrimitiveSchema_data options .intT = (if options.int_32 then "int" else "long")
  ∧ PrimitiveSchema_data options .strT = "string"
  ∧ PrimitiveSchema_data options .noneT = "null" := by
  obtain ⟨i32, f32, o3, o4, o5, o6, o7, o8, o9⟩ := options
  cases i32 <;> cases f32 <;> exact ⟨rfl, rfl, rfl, rfl, rfl, rfl⟩

/-! ### Claim C7 (namespace resolution) -/

/-- Claim C7: the override and the two auto-namespace modes behave as
claimed, but builtin types do not yield an empty namespace — the source
compares the module name against `"builtin"`, a module name that never
exists (the real module is `"builtins"`), so a type declared in `builtins`
is auto-namespaced to `"builtins"`. -/
theorem claim_C7_namespace :
    Schema_namespace none defaultOptions (some "builtins") = some "builtins"
  ∧ (∀ (options : Options) (module : Option String) (s : String),
      Schema_namespace (some s) options module = some s)
  ∧ (∀ module, Schema_namespace none optsNoAuto module = none)
  ∧ Schema_namespace none defaultOptions (some "my_package.my_module") = some "my_package"
  ∧ Schema_namespace none optsAutoModule (some "my_package.my_module")
      = some "my_package.my_module"
  ∧ Schema_namespace none defaultOptions none = none := by
  refine ⟨rfl, ?_, fun module => rfl, rfl, rfl, rfl⟩
  intro options module s
  cases h : options.no_auto_namespace <;> simp [Schema_namespace, h]

/-! ### Claim C8 (time and datetime defaults) -/

/-- Claim C8, counterexample: with MILLISECONDS the time schema declares
logical type `time-millis`, yet the encoded default for 00:00:01 is
1000000 — the microsecond count — and not the 1000 milliseconds the claim
requires, because `make_default` multiplies by 1e6 unconditionally. -/
theorem claim_C8_counterexample :
    TimeSchema_data optsMs
      = .jObj [("type", .jStr "int"), ("logicalType", .jStr "time-millis")]
  ∧ Schema_make_default .timeObj (.vTime 0 0 1 0) = .ok (.jNum 1000000)
  ∧ (1000000 : Int) ≠ 1000 :=
  ⟨rfl, rfl, by decide⟩

/-- Claim C8, amended: time and datetime defaults are always encoded as
elapsed microseconds (since midnight, respectively since the epoch),
regardless of the MILLISECONDS option; the option only switches the
schema's logical type (and the time schema's base type).  A naive datetime
default fails. -/
theorem claim_C8_amended_defaults_micros :
    (∀ h m s micro, Schema_make_default .timeObj (.vTime h m s micro)
        = .ok (.jNum ((h * 3600 + m * 60 + s) * 1000000 + micro : Nat)))
  ∧ (∀ aware micros, Schema_make_default .dateTimeObj (.vDateTime aware micros)
        = if aware then .ok (.jNum micros) else .error .naiveDatetime)
  ∧ (∀ options : Options, TimeSchema_data options
        = .jObj [("type", .jStr (if options.milliseconds then "int" else "long")),
                 ("logicalType", .jStr (if options.milliseconds then "time-millis" else "time-micros"))])
  ∧ (∀ options : Options, DateTimeSchema_data options
        = .jObj [("type", .jStr "long"),
                 ("logicalType", .jStr (if options.milliseconds then "timestamp-millis" else "timestamp-micros"))]) := by
  refine ⟨fun h m s micro => rfl, ?_, ?_, ?_⟩
  · intro aware micros
    cases aware <;> rfl
  · intro options
    cases h : options.milliseconds <;> simp [TimeSchema_data, h]
  · intro options
    cases h : options.milliseconds <;> simp [DateTimeSchema_data, h]

/-! ### Claims C3 and C4 (decimal default encoding) -/

/-- Claim C3: whenever the precision and scale checks pass, the encoded
decimal default is the hex rendering (behind the `\u` marker) of the
minimal big-endian two's-complement byte string of the signed unscaled
integer — the digit sequence folded into an integer, multiplied by
`10^(exponent+scale)`, in `(bitLength + 8) / 8` bytes; in particular
precision 4, scale 2, value 3.14 encodes to exactly the six-character
string backslash-u-0-1-3-a. -/
theorem claim_C3_decimal_encoding (precision : Nat) (scale : Option Nat)
    (sign : Bool) (digits : List Nat) (exp : Int)
    (hp : digits.length ≤ precision) (hs : 0 ≤ exp + (scale.getD 0 : Nat)) :
    DecimalSchema_make_default precision scale sign digits exp
      = .ok ("\\u" ++
          to_bytes_hex
            ((bit_length (10 ^ (exp + (scale.getD 0 : Nat)).toNat *
                digits.foldl (fun acc d => acc * 10 + d) 0) + 8) / 8)
            (if sign then
              -((10 ^ (exp + (scale.getD 0 : Nat)).toNat *
                  digits.foldl (fun acc d => acc * 10 + d) 0 : Nat) : Int)
             else
              ((10 ^ (exp + (scale.getD 0 : Nat)).toNat *
                  digits.foldl (fun acc d => acc * 10 + d) 0 : Nat) : Int)))
  ∧ DecimalSchema_make_default 4 (some 2) false [3, 1, 4] (-2) = .ok "\\u013a" := by
  constructor
  · simp only [DecimalSchema_make_default]
    rw [if_neg (by omega), if_neg (by omega)]
  · rfl

/-- Witness for claim C3: the 3.14 fixture discharges both checks. -/
theorem claim_C3_witness :
    DecimalSchema_make_default 4 (some 2) false [3, 1, 4] (-2) = .ok "\\u013a" :=
  (claim_C3_decimal_encoding 4 (some 2) false [3, 1, 4] (-2) (by decide) (by decide)).2

/-- Claim C4: encoding a decimal default fails exactly when the digit
count exceeds the declared precision or the exponent plus the declared
scale is negative; with precision 4 and scale 2, the value 123.45 fails
with the precision-exceeded error and the value 1.234 with the
scale-exceeded error. -/
theorem claim_C4_decimal_overflow :
    (∀ (precision : Nat) (scale : Option Nat) (sign : Bool) (digits : List Nat) (exp : Int),
      (∃ e, DecimalSchema_make_default precision scale sign digits exp = .error e)
        ↔ (digits.length > precision ∨ exp + (scale.getD 0 : Nat) < 0))
  ∧ DecimalSchema_make_default 4 (some 2) false [1, 2, 3, 4, 5] (-2)
      = .error .decimalPrecisionExceeded
  ∧ DecimalSchema_make_default 4 (some 2) false [1, 2, 3, 4] (-3)
      = .error .decimalScaleExceeded := by
  refine ⟨?_, rfl, rfl⟩
  intro p s sign digits exp
  simp only [DecimalSchema_make_default]
  by_cases h1 : digits.length > p
  · simp [h1]
  · rw [if_neg h1]
    by_cases h2 : exp + ((s.getD 0 : Nat) : Int) < 0
    · simp [h1, h2]
    · rw [if_neg h2]
      simp [h1, h2]

/-! ### Claim C9 (enum symbols) -/

theorem dedupFirstAux_sublist {α : Type} [BEq α] :
    ∀ (fuel : Nat) (l : List α), l.length ≤ fuel → (dedupFirstAux fuel l).Sublist l := by
  intro fuel
  induction fuel with
  | zero =>
    intro l h
    have : l = [] := List.length_eq_zero.mp (Nat.le_zero.mp h)
    subst this
    simp [dedupFirstAux]
  | succ n ih =>
    intro l h
    cases l with
    | nil => simp [dedupFirstAux]
    | cons x xs =>
      simp only [dedupFirstAux]
      exact List.Sublist.cons₂ x
        ((ih _ (le_trans (xs.length_filter_le _) (by simpa using h))).trans
          (List.filter_sublist xs))

theorem mem_dedupFirstAux {α : Type} [BEq α] [LawfulBEq α] :
    ∀ (fuel : Nat) (l : List α) (a : α), l.length ≤ fuel → a ∈ l →
      a ∈ dedupFirstAux fuel l := by
  intro fuel
  induction fuel with
  | zero =>
    intro l a h ha
    have : l = [] := List.length_eq_zero.mp (Nat.le_zero.mp h)
    subst this
    simp at ha
  | succ n ih =>
    intro l a h ha
    cases l with
    | nil => simp at ha
    | cons x xs =>
      simp only [dedupFirstAux]
      rcases List.mem_cons.mp ha with rfl | hxs
      · exact List.mem_cons_self a _
      · by_cases hax : a = x
        · subst hax
          exact List.mem_cons_self a _
        · refine List.mem_cons_of_mem x (ih _ a ?_ ?_)
          · exact le_trans (xs.length_filter_le _) (by simpa using h)
          · simp [List.mem_filter, hxs, hax]

theorem nodup_dedupFirstAux {α : Type} [BEq α] [LawfulBEq α] :
    ∀ (fuel : Nat) (l : List α), l.length ≤ fuel → (dedupFirstAux fuel l).Nodup := by
  intro fuel
  induction fuel with
  | zero =>
    intro l h
    have : l = [] := List.length_eq_zero.mp (Nat.le_zero.mp h)
    subst this
    simp [dedupFirstAux]
  | succ n ih =>
    intro l h
    cases l with
    | nil => simp [dedupFirstAux]
    | cons x xs =>
      simp only [dedupFirstAux]
      have hle : (xs.filter (fun y => !(y == x))).length ≤ n :=
        le_trans (xs.length_filter_le _) (by simpa using h)
      refine List.nodup_cons.mpr ⟨?_, ih _ hle⟩
      intro hx
      have := (dedupFirstAux_sublist n _ hle).subset hx
      simp [List.mem_filter] at this

theorem dedupFirst_head? {α : Type} [BEq α] (l : List α) :
    (dedupFirst l).head? = l.head? := by
  cases l <;> rfl

theorem vStr_beq (a b : String) : (PyVal.vStr a == PyVal.vStr b) = (a == b) := by
  by_cases h : a = b <;> simp [h]

theorem dedupFirstAux_map_vStr :
    ∀ (fuel : Nat) (l : List String),
      dedupFirstAux fuel (l.map PyVal.vStr) = (dedupFirstAux fuel l).map PyVal.vStr := by
  intro fuel
  induction fuel with
  | zero => intro l; cases l <;> rfl
  | succ n ih =>
    intro l
    cases l with
    | nil => rfl
    | cons x xs =>
      simp only [List.map_cons, dedupFirstAux]
      rw [List.filter_map]
      have hpred : ((fun y => !(y == PyVal.vStr x)) ∘ PyVal.vStr)
          = (fun y => !(y == x)) := by
        funext y
        simp [Function.comp, vStr_beq]
      rw [hpred, ih]

theorem dedupFirstAux_const (c : String) :
    ∀ (fuel : Nat) (l : List String), l.length ≤ fuel → l ≠ [] → (∀ x ∈ l, x = c) →
      dedupFirstAux fuel l = [c] := by
  intro fuel
  induction fuel with
  | zero =>
    intro l h hne _
    exact absurd (List.length_eq_zero.mp (Nat.le_zero.mp h)) hne
  | succ n ih =>
    intro l h hne hall
    cases l with
    | nil => exact absurd rfl hne
    | cons x xs =>
      have hx : x = c := hall x (List.mem_cons_self x xs)
      subst hx
      simp only [dedupFirstAux]
      have hfil : xs.filter (fun y => !(y == x)) = [] := by
        refine List.filter_eq_nil_iff.mpr ?_
        intro y hy
        have := hall y (List.mem_cons_of_mem x hy)
        subst this
        simp
      rw [hfil]
      cases n <;> rfl

theorem stringValues_of_all_str :
    ∀ (l : List PyVal), (∀ v ∈ l, v.isVStr = true) →
      l = (l.filterMap PyVal.asString).map PyVal.vStr := by
  intro l
  induction l with
  | nil => intro _; rfl
  | cons x xs ih =>
    intro h
    cases x with
    | vStr s =>
      have := ih (fun v hv => h v (List.mem_cons_of_mem _ hv))
      simp only [List.filterMap_cons, PyVal.asString, List.map_cons]
      rw [← this]
    | vNone => exact absurd (h _ (List.mem_cons_self _ _)) (by simp [PyVal.isVStr])
    | vBool b => exact absurd (h _ (List.mem_cons_self _ _)) (by simp [PyVal.isVStr])
    | vInt n => exact absurd (h _ (List.mem_cons_self _ _)) (by simp [PyVal.isVStr])
    | vDate d => exact absurd (h _ (List.mem_cons_self _ _)) (by simp [PyVal.isVStr])
    | vTime a b c d => exact absurd (h _ (List.mem_cons_self _ _)) (by simp [PyVal.isVStr])
    | vDateTime a b => exact absurd (h _ (List.mem_cons_self _ _)) (by simp [PyVal.isVStr])
    | vDecimal a b c => exact absurd (h _ (List.mem_cons_self _ _)) (by simp [PyVal.isVStr])
    | vTimeDelta => exact absurd (h _ (List.mem_cons_self _ _)) (by simp [PyVal.isVStr])
    | vUUID => exact absurd (h _ (List.mem_cons_self _ _)) (by simp [PyVal.isVStr])

theorem typeName_eq_str_iff (v : PyVal) : v.typeName = "str" ↔ v.isVStr = true := by
  cases v <;> simp [PyVal.typeName, PyVal.isVStr]

theorem dedupFirst_const (c : String) (l : List String) (hne : l ≠ [])
    (hall : ∀ x ∈ l, x = c) : dedupFirst l = [c] :=
  dedupFirstAux_const c l.length l (le_refl _) hne hall

/-- Claim C9: for a non-empty enumeration (the claim's "first symbol"
presupposes at least one member): when all member values are strings, the
schema's symbols are the member values in declaration order with members
sharing a value collapsed onto the first-declared occurrence — the
first-occurrence deduplication of the value sequence, a duplicate-free
sublist of it sharing its first element — and the rendered enum schema's
default is the first symbol; when any member value is not a string,
generation fails with the invalid-enum-members error. -/
theorem claim_C9_enum_symbols (members : List (String × PyVal)) (hne : members ≠ []) :
    ((∀ m ∈ members, (Prod.snd m).isVStr = true) →
      ∃ symbols, EnumSchema_init members = .ok symbols
        ∧ symbols = dedupFirst (members.filterMap (fun m => m.2.asString))
        ∧ symbols.Nodup
        ∧ symbols.Sublist (members.filterMap (fun m => m.2.asString))
        ∧ symbols.head? = (members.filterMap (fun m => m.2.asString)).head?
        ∧ symbols ≠ []
        ∧ ∀ (options : Options) (name : String) (ns : Option String) (doc : String),
            ∃ rest, EnumSchema_data_before_dedup options name ns doc symbols
              = .jObj ([("type", .jStr "enum"), ("name", .jStr name),
                        ("symbols", .jArr (symbols.map .jStr)),
                        ("default", .jStr (symbols.headD ""))] ++ rest))
  ∧ ((∃ m ∈ members, (Prod.snd m).isVStr = false) →
      EnumSchema_init members = .error .invalidEnumMembers) := by
  constructor
  · intro hall
    set sv := members.filterMap (fun m => m.2.asString) with hsv
    have hvals : members.map Prod.snd = sv.map PyVal.vStr := by
      have h1 : ∀ v ∈ members.map Prod.snd, v.isVStr = true := by
        intro v hv
        obtain ⟨m, hm, rfl⟩ := List.mem_map.mp hv
        exact hall m hm
      have h2 := stringValues_of_all_str (members.map Prod.snd) h1
      rw [List.filterMap_map] at h2
      exact h2
    have hsvne : sv ≠ [] := by
      cases members with
      | nil => exact absurd rfl hne
      | cons m ms =>
        have hstr := hall m (List.mem_cons_self m ms)
        cases hm2 : m.2 with
        | vStr s =>
          simp [hsv, List.filterMap_cons, hm2, PyVal.asString]
        | vNone => rw [hm2] at hstr; simp [PyVal.isVStr] at hstr
        | vBool b => rw [hm2] at hstr; simp [PyVal.isVStr] at hstr
        | vInt n => rw [hm2] at hstr; simp [PyVal.isVStr] at hstr
        | vDate d => rw [hm2] at hstr; simp [PyVal.isVStr] at hstr
        | vTime a b c d => rw [hm2] at hstr; simp [PyVal.isVStr] at hstr
        | vDateTime a b => rw [hm2] at hstr; simp [PyVal.isVStr] at hstr
        | vDecimal a b c => rw [hm2] at hstr; simp [PyVal.isVStr] at hstr
        | vTimeDelta => rw [hm2] at hstr; simp [PyVal.isVStr] at hstr
        | vUUID => rw [hm2] at hstr; simp [PyVal.isVStr] at hstr
    have hdne : dedupFirst sv ≠ [] := by
      intro h0
      have hh := dedupFirst_head? sv
      rw [h0] at hh
      cases hsv' : sv with
      | nil => exact hsvne hsv'
      | cons a as => rw [hsv'] at hh; simp at hh
    have hsymbols : enumIterValues members = (dedupFirst sv).map PyVal.vStr := by
      unfold enumIterValues dedupFirst
      rw [hvals, List.length_map, dedupFirstAux_map_vStr]
    have htypes :
        dedupFirst ((dedupFirst sv).map (PyVal.typeName ∘ PyVal.vStr)) = ["str"] := by
      apply dedupFirst_const
      · simp [hdne]
      · intro x hx
        obtain ⟨y, hy, rfl⟩ := List.mem_map.mp hx
        rfl
    have hcomp : PyVal.asString ∘ PyVal.vStr = some := by
      funext s
      rfl
    have hout : ((dedupFirst sv).map PyVal.vStr).filterMap PyVal.asString
        = dedupFirst sv := by
      rw [List.filterMap_map, hcomp]
      exact List.filterMap_some _
    have hinit : EnumSchema_init members = .ok (dedupFirst sv) := by
      unfold EnumSchema_init
      rw [hsymbols]
      rw [if_neg (by simp [htypes])]
      rw [hout]
    refine ⟨dedupFirst sv, hinit, rfl, ?_, ?_, ?_, hdne, ?_⟩
    · exact nodup_dedupFirstAux sv.length sv (le_refl _)
    · exact dedupFirstAux_sublist sv.length sv (le_refl _)
    · exact dedupFirst_head? sv
    · intro options name ns doc
      exact ⟨_, rfl⟩
  · rintro ⟨m, hm, hbad⟩
    have hcond :
        dedupFirst ((enumIterValues members).map PyVal.typeName) ≠ ["str"] := by
      intro heq
      have h1 : m.2 ∈ members.map Prod.snd := List.mem_map_of_mem _ hm
      have h2 : m.2 ∈ enumIterValues members := by
        unfold enumIterValues dedupFirst
        exact mem_dedupFirstAux _ _ _ (le_refl _) h1
      have h3 : m.2.typeName ∈ (enumIterValues members).map PyVal.typeName :=
        List.mem_map_of_mem _ h2
      have h4 : m.2.typeName ∈
          dedupFirst ((enumIterValues members).map PyVal.typeName) := by
        unfold dedupFirst
        exact mem_dedupFirstAux _ _ _ (le_refl _) h3
      rw [heq] at h4
      have h5 : m.2.typeName = "str" := by simpa using h4
      rw [typeName_eq_str_iff] at h5
      rw [h5] at hbad
      simp at hbad
    simp [EnumSchema_init, hcond]

/-- Witness for claim C9: the RED/GREEN/GREEN_ALIAS enum — the alias
collapses onto the first GREEN. -/
theorem claim_C9_witness :
    EnumSchema_init
      [("RED", .vStr "RED"), ("GREEN", .vStr "GREEN"), ("GREEN_ALIAS", .vStr "GREEN")]
      = .ok ["RED", "GREEN"] := by
  obtain ⟨symbols, hinit, hsym, -, -, -, -, -⟩ :=
    (claim_C9_enum_symbols
      [("RED", .vStr "RED"), ("GREEN", .vStr "GREEN"), ("GREEN_ALIAS", .vStr "GREEN")]
      (by decide)).1 (by decide)
  rw [hinit, hsym]
  exact rfl

/-! ### Claim C1 (named-schema deduplication) -/

theorem dataList_names_mono
    (recur : SchemaObj → NamesType → Except PyErr (JSONType × NamesType))
    (hrec : ∀ s nm r nm', recur s nm = .ok (r, nm') → nm <+: nm') :
    ∀ (l : List SchemaObj) (nm : NamesType) (r : List JSONType) (nm' : NamesType),
      dataList recur l nm = .ok (r, nm') → nm <+: nm' := by
  intro l
  induction l with
  | nil =>
    intro nm r nm' h
    simp only [dataList, Except.ok.injEq, Prod.mk.injEq] at h
    exact h.2 ▸ List.prefix_refl _
  | cons s rest ih =>
    intro nm r nm' h
    simp only [dataList] at h
    split at h
    · exact absurd h (by simp)
    · next d nm1 heq =>
      split at h
      · exact absurd h (by simp)
      · next ds nm2 heq2 =>
        simp only [Except.ok.injEq, Prod.mk.injEq] at h
        exact h.2 ▸ (hrec s nm d nm1 heq).trans (ih nm1 ds nm2 heq2)

theorem RecordField_data_names_mono
    (recur : SchemaObj → NamesType → Except PyErr (JSONType × NamesType))
    (hrec : ∀ s nm r nm', recur s nm = .ok (r, nm') → nm <+: nm') :
    ∀ (n : String) (s : SchemaObj) (d : Option PyVal) (nm : NamesType)
      (r : JSONType) (nm' : NamesType),
      RecordField_data recur n s d nm = .ok (r, nm') → nm <+: nm' := by
  intro n s d nm r nm' h
  unfold RecordField_data at h
  split at h
  · exact absurd h (by simp)
  · next td nm1 heq =>
    have hpre := hrec s nm td nm1 heq
    split at h
    · split at h
      · exact absurd h (by simp)
      · simp only [Except.ok.injEq, Prod.mk.injEq] at h
        exact h.2 ▸ hpre
    · simp only [Except.ok.injEq, Prod.mk.injEq] at h
      exact h.2 ▸ hpre

theorem dataFields_names_mono
    (recur : SchemaObj → NamesType → Except PyErr (JSONType × NamesType))
    (hrec : ∀ s nm r nm', recur s nm = .ok (r, nm') → nm <+: nm') :
    ∀ (l : List (String × SchemaObj × Option PyVal)) (nm : NamesType)
      (r : List JSONType) (nm' : NamesType),
      dataFields recur l nm = .ok (r, nm') → nm <+: nm' := by
  intro l
  induction l with
  | nil =>
    intro nm r nm' h
    simp only [dataFields, Except.ok.injEq, Prod.mk.injEq] at h
    exact h.2 ▸ List.prefix_refl _
  | cons f rest ih =>
    intro nm r nm' h
    obtain ⟨n, s, d⟩ := f
    simp only [dataFields] at h
    split at h
    · exact absurd h (by simp)
    · next fd nm1 heq =>
      split at h
      · exact absurd h (by simp)
      · next fds nm2 heq2 =>
        simp only [Except.ok.injEq, Prod.mk.injEq] at h
        exact h.2 ▸ (RecordField_data_names_mono recur hrec n s d nm fd nm1 heq).trans
          (ih nm1 fds nm2 heq2)

/-- Rendering only ever appends to the names list: the input list is a
prefix of the output list. -/
theorem Schema_data_names_mono (options : Options) :
    ∀ (fuel : Nat) (s : SchemaObj) (nm : NamesType) (r : JSONType) (nm' : NamesType),
      Schema_data options fuel s nm = .ok (r, nm') → nm <+: nm' := by
  intro fuel
  induction fuel with
  | zero =>
    intro s nm r nm' h
    simp [Schema_data] at h
  | succ n ih =>
    intro s nm r nm' h
    cases s with
    | primitive t =>
      simp only [Schema_data, Except.ok.injEq, Prod.mk.injEq] at h
      exact h.2 ▸ List.prefix_refl _
    | strSubclass fullname =>
      simp only [Schema_data, Except.ok.injEq, Prod.mk.injEq] at h
      exact h.2 ▸ List.prefix_refl _
    | dictAsJson =>
      simp only [Schema_data, Except.ok.injEq, Prod.mk.injEq] at h
      exact h.2 ▸ List.prefix_refl _
    | uuidObj =>
      simp only [Schema_data, Except.ok.injEq, Prod.mk.injEq] at h
      exact h.2 ▸ List.prefix_refl _
    | dateObj =>
      simp only [Schema_data, Except.ok.injEq, Prod.mk.injEq] at h
      exact h.2 ▸ List.prefix_refl _
    | timeObj =>
      simp only [Schema_data, Except.ok.injEq, Prod.mk.injEq] at h
      exact h.2 ▸ List.prefix_refl _
    | dateTimeObj =>
      simp only [Schema_data, Except.ok.injEq, Prod.mk.injEq] at h
      exact h.2 ▸ List.prefix_refl _
    | timeDeltaObj =>
      simp only [Schema_data, Except.ok.injEq, Prod.mk.injEq] at h
      exact h.2 ▸ List.prefix_refl _
    | decimalObj t =>
      simp only [Schema_data] at h
      split at h
      · simp only [Except.ok.injEq, Prod.mk.injEq] at h
        exact h.2 ▸ List.prefix_refl _
      · exact absurd h (by simp)
    | forwardObj fn =>
      simp only [Schema_data, Except.ok.injEq, Prod.mk.injEq] at h
      exact h.2 ▸ List.prefix_refl _
    | sequenceObj item =>
      simp only [Schema_data] at h
      split at h
      · next d nm1 heq =>
        simp only [Except.ok.injEq, Prod.mk.injEq] at h
        exact h.2 ▸ ih item nm d nm1 heq
      · exact absurd h (by simp)
    | dictObj values =>
      simp only [Schema_data] at h
      split at h
      · next d nm1 heq =>
        simp only [Except.ok.injEq, Prod.mk.injEq] at h
        exact h.2 ▸ ih values nm d nm1 heq
      · exact absurd h (by simp)
    | unionObj items =>
      simp only [Schema_data] at h
      split at h
      · next ds nm1 heq =>
        simp only [Except.ok.injEq, Prod.mk.injEq] at h
        exact h.2 ▸ dataList_names_mono _ (fun s nm r nm' hh => ih s nm r nm' hh)
          (items.map Prod.snd) nm ds nm1 heq
      · exact absurd h (by simp)
    | enumObj name nsp doc symbols =>
      simp only [Schema_data] at h
      split at h
      · simp only [Except.ok.injEq, Prod.mk.injEq] at h
        exact h.2 ▸ List.prefix_refl _
      · simp only [Except.ok.injEq, Prod.mk.injEq] at h
        exact h.2 ▸ List.prefix_append _ _
    | recordObj name nsp doc fields =>
      simp only [Schema_data] at h
      split at h
      · simp only [Except.ok.injEq, Prod.mk.injEq] at h
        exact h.2 ▸ List.prefix_refl _
      · split at h
        · next fds nm2 heq =>
          simp only [Except.ok.injEq, Prod.mk.injEq] at h
          exact h.2 ▸ (List.prefix_append nm _).trans
            (dataFields_names_mono _ (fun s nm r nm' hh => ih s nm r nm' hh)
              fields (nm ++ [NamedSchema_fullname name nsp]) fds nm2 heq)
        · exact absurd h (by simp)

/-- Claim C1: a named schema (record or enum) renders its full definition
exactly on the first encounter of its full name, appending the full name
to the names list; on every later encounter within the same call — in
particular after a successful first rendering — only the bare full-name
string is rendered.  A self-referential record renders the nested
occurrence of itself as the bare name string, with the definition
appearing exactly once. -/
theorem claim_C1_named_dedup (options : Options) (fuel : Nat) (name : String)
    (nsp : Option String) (doc : String)
    (fields : List (String × SchemaObj × Option PyVal)) (names : NamesType) :
    (NamedSchema_fullname name nsp ∈ names →
      Schema_data options (fuel + 1) (.recordObj name nsp doc fields) names
        = .ok (.jStr (NamedSchema_fullname name nsp), names))
  ∧ (NamedSchema_fullname name nsp ∉ names →
      Schema_data options (fuel + 1) (.recordObj name nsp doc fields) names
        = match dataFields (fun o nm => Schema_data options fuel o nm) fields
              (names ++ [NamedSchema_fullname name nsp]) with
          | .ok (fds, names') =>
              .ok (RecordSchema_data_before_dedup options name nsp doc fds, names')
          | .error e => .error e)
  ∧ (∀ res names', Schema_data options (fuel + 1) (.recordObj name nsp doc fields) names
        = .ok (res, names') →
      NamedSchema_fullname name nsp ∈ names'
      ∧ ∀ (g : Nat) (doc' : String) (fields' : List (String × SchemaObj × Option PyVal)),
          Schema_data options (g + 1) (.recordObj name nsp doc' fields') names'
            = .ok (.jStr (NamedSchema_fullname name nsp), names'))
  ∧ (∀ symbols, NamedSchema_fullname name nsp ∈ names →
      Schema_data options (fuel + 1) (.enumObj name nsp doc symbols) names
        = .ok (.jStr (NamedSchema_fullname name nsp), names))
  ∧ (∀ symbols, NamedSchema_fullname name nsp ∉ names →
      Schema_data options (fuel + 1) (.enumObj name nsp doc symbols) names
        = .ok (EnumSchema_data_before_dedup options name nsp doc symbols,
               names ++ [NamedSchema_fullname name nsp]))
  ∧ Schema_data defaultOptions 2
      (.recordObj "Node" none "" [("child", .forwardObj "Node", none)]) []
      = .ok (.jObj [("type", .jStr "record"), ("name", .jStr "Node"),
                    ("fields", .jArr [.jObj [("name", .jStr "child"), ("type", .jStr "Node")]])],
             ["Node"]) := by
  refine ⟨?_, ?_, ?_, ?_, ?_, rfl⟩
  · intro h
    simp [Schema_data, h]
  · intro h
    simp only [Schema_data]
    rw [if_neg h]
  · intro res names' h
    by_cases hmem : NamedSchema_fullname name nsp ∈ names
    · have heq : Schema_data options (fuel + 1) (.recordObj name nsp doc fields) names
          = .ok (.jStr (NamedSchema_fullname name nsp), names) := by
        simp [Schema_data, hmem]
      rw [heq] at h
      simp only [Except.ok.injEq, Prod.mk.injEq] at h
      refine ⟨h.2 ▸ hmem, ?_⟩
      intro g doc' fields'
      simp [Schema_data, h.2 ▸ hmem]
    · have hmem' : NamedSchema_fullname name nsp ∈ names' := by
        have hpre := Schema_data_names_mono options (fuel + 1)
          (.recordObj name nsp doc fields) names res names' h
        simp only [Schema_data] at h
        rw [if_neg hmem] at h
        split at h
        · next fds nm2 heq2 =>
          simp only [Except.ok.injEq, Prod.mk.injEq] at h
          have hpre2 := dataFields_names_mono _
            (fun s nm r nm' hh => Schema_data_names_mono options fuel s nm r nm' hh)
            fields (names ++ [NamedSchema_fullname name nsp]) fds nm2 heq2
          exact h.2 ▸ hpre2.subset (by simp)
        · exact absurd h (by simp)
      refine ⟨hmem', ?_⟩
      intro g doc' fields'
      simp [Schema_data, hmem']
  · intro symbols h
    simp [Schema_data, h]
  · intro symbols h
    simp [Schema_data, h]

/-- Witness for claim C1: a full name already in the names list renders as
the bare string; a fresh enum appends its name and renders fully. -/
theorem claim_C1_witness :
    Schema_data defaultOptions 1 (.recordObj "Node" none "" []) ["Node"]
      = .ok (.jStr "Node", ["Node"])
  ∧ Schema_data defaultOptions 1 (.enumObj "Color" none "" ["RED"]) []
      = .ok (.jObj [("type", .jStr "enum"), ("name", .jStr "Color"),
                    ("symbols", .jArr [.jStr "RED"]), ("default", .jStr "RED")],
             ["Color"]) := by
  constructor
  · exact (claim_C1_named_dedup defaultOptions 0 "Node" none "" [] ["Node"]).1 (by decide)
  · have h := (claim_C1_named_dedup defaultOptions 0 "Color" none "" [] []).2.2.2.2.1
      ["RED"] (by decide)
    rw [h]
    exact rfl

end PyAvroSchema
